import Mathlib

/-!
Verification of the Remix-Dev-SDEF incident-dispatch dashboard.

This file gives a shallow embedding, in Lean, of the client-side logic of
the repository that the specification talks about:

* the propagation-cone construction `createPropagationCone` and its helper
  `getDegreesFromCardinal` (map component source);
* the incident API client (`transformBackendStatus`, `transformBackendPriority`,
  `getIncendio`, `getIncendios`, `createIncendio`, `updateIncendio`,
  `updateIncendioStatus`, `updateIncendioPriority` in `app/apis/incendios.ts`);
* the map layer loading logic `loadLayerData` (`app/components/MapComponent.tsx`)
  together with the static `LAYER_CONFIGS` list;
* the UI handlers `handleDeclareIncident` and `handleCoordinateSubmit`.

Modelling conventions: JSON / JavaScript numbers are modelled as rationals
(`ℚ`); the trigonometric cone geometry is carried out over `ℝ`; a possibly
`undefined` field is an `Option`; JavaScript falsiness of a number is `= 0`
or `undefined`, of a string `= ""` or `undefined`; a thrown exception is the
`Except.error` constructor; asynchronous HTTP calls are replaced by explicit
oracles (environment records) plus an explicit trace/count of the requests
that were issued, so that load-once / no-retry statements can be expressed.
-/

namespace SDEF

/-! ## JavaScript value helpers -/

/-- JavaScript truthiness of a possibly-undefined number: `undefined`, `0`
(and `NaN`, which the rational model does not represent) are falsy. -/
def numTruthy : Option ℚ → Bool
  | none => false
  | some x => x != 0

/-- JavaScript truthiness of a possibly-undefined string: `undefined` and the
empty string are falsy. -/
def strTruthy : Option String → Bool
  | none => false
  | some s => s != ""

/-- JavaScript `x || 0` on a possibly-undefined number. -/
def jsOrZero : Option ℚ → ℚ
  | none => 0
  | some v => if v = 0 then 0 else v

/-- JavaScript `x || d` on a possibly-undefined string (the empty string is
falsy and also falls back to the default). -/
def jsOrStr (o : Option String) (d : String) : String :=
  match o with
  | none => d
  | some s => if s = "" then d else s

/-! ## Data model of the incident payload used by `createPropagationCone`

The weather analysis object attached to the declare-incident response.
Every field that the object spread / optional chaining in the source can
find missing is an `Option`. -/

structure CurrentConditions where
  wind_speed_kmh : Option ℚ
  wind_direction_degrees : Option ℚ
deriving DecidableEq

structure FirePropagation where
  risk_level : Option String
  direccion_aproximada : Option String
deriving DecidableEq

structure WeatherAnalysis where
  found : Bool
  current_conditions : Option CurrentConditions
  fire_propagation : Option FirePropagation
deriving DecidableEq

structure Coordinates where
  latitude : ℚ
  longitude : ℚ
deriving DecidableEq

structure IncidentData where
  coordinates : Option Coordinates
  weather_analysis : Option WeatherAnalysis
deriving DecidableEq

/-! ## GeoJSON output of the cone construction -/

structure ConeProperties where
  type : String
  wind_speed : ℚ
  wind_direction : ℚ
  risk_level : String
  propagation_direction : Option String

structure ConeGeometry where
  type : String
  coordinates : List (List (ℝ × ℝ))

structure ConeFeature where
  type : String
  properties : ConeProperties
  geometry : ConeGeometry

structure FeatureCollection where
  type : String
  features : List ConeFeature

/-! ## `getDegreesFromCardinal` -/

/-- The `cardinalMap` object literal inside `getDegreesFromCardinal`:
a lookup keyed by the eight Spanish cardinal names, `undefined` otherwise. -/
def cardinalMap (direction : String) : Option ℚ :=
  if direction = "Norte" then some 0
  else if direction = "Noreste" then some 45
  else if direction = "Este" then some 90
  else if direction = "Sureste" then some 135
  else if direction = "Sur" then some 180
  else if direction = "Suroeste" then some 225
  else if direction = "Oeste" then some 270
  else if direction = "Noroeste" then some 315
  else none

/-- `getDegreesFromCardinal(direction) = cardinalMap[direction] || 0`.
The argument is an `Option` because the call site passes
`fire_propagation.direccion_aproximada`, which may be `undefined`. -/
def getDegreesFromCardinal (direction : Option String) : ℚ :=
  jsOrZero (direction.bind cardinalMap)

/-! ## Cone geometry -/

/-- The vertex ring pushed by `createPropagationCone`: origin, left base,
tip, right base, origin again (each vertex a `[longitude, latitude]` pair).
`coneLength` is in meters and `propagationDegrees` is the compass bearing
obtained from the cardinal direction. -/
noncomputable def coneVertices (latitude longitude coneLength propagationDegrees : ℚ) :
    List (ℝ × ℝ) :=
  let metersPerDegree : ℝ := 111000
  let coneAngle : ℝ := Real.pi / 6
  let mathAngle : ℝ := ((90 : ℝ) - (propagationDegrees : ℝ)) * (Real.pi / 180)
  let k : ℝ := (coneLength : ℝ) / metersPerDegree
  let cosLat : ℝ := Real.cos ((latitude : ℝ) * Real.pi / 180)
  let tipLat : ℝ := (latitude : ℝ) + k * Real.sin mathAngle
  let tipLon : ℝ := (longitude : ℝ) + k * Real.cos mathAngle / cosLat
  let leftAngle : ℝ := mathAngle - coneAngle
  let rightAngle : ℝ := mathAngle + coneAngle
  let leftLat : ℝ := (latitude : ℝ) + k * Real.sin leftAngle
  let leftLon : ℝ := (longitude : ℝ) + k * Real.cos leftAngle / cosLat
  let rightLat : ℝ := (latitude : ℝ) + k * Real.sin rightAngle
  let rightLon : ℝ := (longitude : ℝ) + k * Real.cos rightAngle / cosLat
  [((longitude : ℝ), (latitude : ℝ)),
   (leftLon, leftLat),
   (tipLon, tipLat),
   (rightLon, rightLat),
   ((longitude : ℝ), (latitude : ℝ))]

/-- The cone length computed in `createPropagationCone`:
`baseRadius = Math.max(wind_speed_kmh * 55, 100)`, times the risk
multiplier (`ALTO` ↦ 2, `MEDIO` ↦ 1.5, otherwise 1), times 2. -/
def coneLengthOf (ws : ℚ) (rl : String) : ℚ :=
  max (ws * 55) 100 * (if rl = "ALTO" then 2 else if rl = "MEDIO" then 3 / 2 else 1) * 2

/-- The feature collection built in the success branch of
`createPropagationCone`. -/
noncomputable def coneResult (coords : Coordinates) (ws wd : ℚ) (rl : String)
    (direccion : Option String) : FeatureCollection :=
  { type := "FeatureCollection"
    features := [
      { type := "Feature"
        properties :=
          { type := "fire_propagation_cone"
            wind_speed := ws
            wind_direction := wd
            risk_level := rl
            propagation_direction := direccion }
        geometry :=
          { type := "Polygon"
            coordinates := [coneVertices coords.latitude coords.longitude
              (coneLengthOf ws rl) (getDegreesFromCardinal direccion)] } }] }

/-- `createPropagationCone`.  Returns `.ok none` where the source returns
`null`, `.ok (some fc)` where it returns a feature collection, and
`.error ()` where the source throws: the source destructures
`incidentData.coordinates` *without* optional chaining right after the first
guard, so a missing `coordinates` object raises a `TypeError` whenever the
first guard passes.  The source also computes a `propagationAngle` from
`wind_direction_degrees + 180`, but that local is never used afterwards; it
is omitted here.  The guard on the weather fields is JavaScript falsiness:
`!wind_speed_kmh || !wind_direction_degrees || !risk_level`, and
`risk_level` is read off `fire_propagation || {}`. -/
noncomputable def createPropagationCone (incidentData : IncidentData) :
    Except Unit (Option FeatureCollection) :=
  match incidentData.weather_analysis with
  | none => Except.ok none
  | some wa =>
    if !wa.found then Except.ok none
    else
      match wa.current_conditions with
      | none => Except.ok none
      | some cc =>
        match incidentData.coordinates with
        | none => Except.error ()
        | some coords =>
          match wa.fire_propagation with
          | none => Except.ok none
          | some fp =>
            match cc.wind_speed_kmh, cc.wind_direction_degrees, fp.risk_level with
            | some ws, some wd, some rl =>
              if ws = 0 ∨ wd = 0 ∨ rl = "" then Except.ok none
              else Except.ok (some (coneResult coords ws wd rl fp.direccion_aproximada))
            | _, _, _ => Except.ok none

/-- Projection: the single linear ring of the cone polygon, when a cone was
produced. -/
noncomputable def coneRing (d : IncidentData) : Option (List (ℝ × ℝ)) :=
  match createPropagationCone d with
  | Except.ok (some fc) =>
    match fc.features with
    | [f] =>
      match f.geometry.coordinates with
      | [r] => some r
      | _ => none
    | _ => none
  | _ => none

/-- The spec-side insufficiency condition, stated from the claim's words:
`weather_analysis` absent, its `found` flag falsy, `current_conditions`
absent, or any of `wind_speed_kmh`, `wind_direction_degrees`, `risk_level`
falsy. -/
def insufficientInput (d : IncidentData) : Bool :=
  match d.weather_analysis with
  | none => true
  | some wa =>
    !wa.found ||
      (match wa.current_conditions with
       | none => true
       | some cc =>
         !numTruthy cc.wind_speed_kmh ||
           !numTruthy cc.wind_direction_degrees ||
           !strTruthy (match wa.fire_propagation with
             | none => none
             | some fp => fp.risk_level))

/-! ## Field projections used to state agreement between two incident inputs -/

def windSpeedOf (d : IncidentData) : Option ℚ :=
  d.weather_analysis.bind fun wa =>
    wa.current_conditions.bind fun cc => cc.wind_speed_kmh

def windDirOf (d : IncidentData) : Option ℚ :=
  d.weather_analysis.bind fun wa =>
    wa.current_conditions.bind fun cc => cc.wind_direction_degrees

def riskOf (d : IncidentData) : Option String :=
  d.weather_analysis.bind fun wa =>
    wa.fire_propagation.bind fun fp => fp.risk_level

def direccionOf (d : IncidentData) : Option String :=
  d.weather_analysis.bind fun wa =>
    wa.fire_propagation.bind fun fp => fp.direccion_aproximada

/-! ## Incident API client (`app/apis/incendios.ts`) -/

/-- A backend incident row, as consumed by the transformation code in
`getIncendios` / `getIncendio` (fields the backend may omit are `Option`). -/
structure BackendIncendio where
  id_incendio : Nat
  nombre : String
  descripcion : Option String
  latitude : ℚ
  longitude : ℚ
  estado : Option String
  prioridad : Option String
  superficie_afectada : Option ℚ
  causa : Option String
  recursos_asignados : Option (List String)
  observaciones : Option String
  created_at : Option String
  updated_at : Option String
deriving DecidableEq

/-- The frontend `IIncendio` record built by the transformation code. -/
structure IIncendio where
  id : Nat
  nombre : String
  descripcion : String
  latitud : ℚ
  longitud : ℚ
  fecha_deteccion : String
  fecha_declaracion : String
  estado : String
  prioridad : String
  superficie_afectada : Option ℚ
  causa : Option String
  recursos_asignados : List String
  observaciones : Option String
  created_at : String
  updated_at : String
deriving DecidableEq

/-- The `statusMap` object literal inside `transformBackendStatus`. -/
def statusMap (s : String) : Option String :=
  if s = "DECLARADO" then some "activo"
  else if s = "EN_COMBATE" then some "activo"
  else if s = "CONTROLADO" then some "controlado"
  else if s = "EXTINGUIDO" then some "extinguido"
  else if s = "CANCELADO" then some "cancelado"
  else none

/-- `transformBackendStatus(s) = statusMap[s?.toUpperCase()] || 'activo'`. -/
def transformBackendStatus (backendStatus : Option String) : String :=
  jsOrStr (backendStatus.bind fun s => statusMap s.toUpper) "activo"

/-- The `priorityMap` object literal inside `transformBackendPriority`. -/
def priorityMap (s : String) : Option String :=
  if s = "BAJA" then some "baja"
  else if s = "MEDIA" then some "media"
  else if s = "ALTA" then some "alta"
  else if s = "CRITICA" then some "critica"
  else none

/-- `transformBackendPriority(s) = priorityMap[s?.toUpperCase()] || 'media'`. -/
def transformBackendPriority (backendPriority : Option String) : String :=
  jsOrStr (backendPriority.bind fun s => priorityMap s.toUpper) "media"

/-- `transformFrontendStatus`, used to build mutation request paths. -/
def transformFrontendStatus (frontendStatus : String) : String :=
  jsOrStr
    ((fun s =>
      if s = "activo" then some "DECLARADO"
      else if s = "controlado" then some "CONTROLADO"
      else if s = "extinguido" then some "EXTINGUIDO"
      else if s = "cancelado" then some "CANCELADO"
      else none) frontendStatus.toLower) "DECLARADO"

/-- `transformFrontendPriority`, used to build mutation request paths. -/
def transformFrontendPriority (frontendPriority : String) : String :=
  jsOrStr
    ((fun s =>
      if s = "baja" then some "BAJA"
      else if s = "media" then some "MEDIA"
      else if s = "alta" then some "ALTA"
      else if s = "critica" then some "CRITICA"
      else none) frontendPriority.toLower) "MEDIA"

/-- JavaScript `x || []` on a possibly-undefined array (every array,
including the empty one, is truthy). -/
def jsOrNilList (o : Option (List String)) : List String :=
  match o with
  | none => []
  | some l => l

/-- JavaScript `x || null` on a possibly-undefined number: `0` is falsy and
is also turned into `null`. -/
def jsOrNullNum (o : Option ℚ) : Option ℚ :=
  match o with
  | none => none
  | some q => if q = 0 then none else some q

/-- The per-item transformation shared (textually duplicated) by
`getIncendios` and `getIncendio`.  `now` stands for
`new Date().toISOString()` at the time of the call. -/
def transformBackendItem (now : String) (item : BackendIncendio) : IIncendio :=
  { id := item.id_incendio
    nombre := item.nombre
    descripcion := jsOrStr item.descripcion ""
    latitud := item.latitude
    longitud := item.longitude
    fecha_deteccion := jsOrStr item.created_at now
    fecha_declaracion := jsOrStr item.created_at now
    estado := transformBackendStatus item.estado
    prioridad := transformBackendPriority item.prioridad
    superficie_afectada := jsOrNullNum item.superficie_afectada
    causa := item.causa
    recursos_asignados := jsOrNilList item.recursos_asignados
    observaciones := item.observaciones
    created_at := jsOrStr item.created_at now
    updated_at := jsOrStr item.updated_at now }

/-- One HTTP request issued by the incendios client, recorded by path. -/
inductive ApiCall where
  | get (path : String)
  | post (path : String)
  | put (path : String)
  | patch (path : String)
deriving DecidableEq

/-- Oracle for the incendios backend: `now` is the clock, `listResp` the
body of `GET /incendios`, `getResp id` the body of `GET /incendios/{id}`,
and `postIncendioResp` the body of `POST /incendios` (of which the source
reads only `id_incendio`). -/
structure IncendiosBackend where
  now : String
  listResp : List BackendIncendio
  getResp : Nat → BackendIncendio
  postIncendioResp : BackendIncendio

/-- `getIncendio`: a single GET followed by the per-item transformation.
Returns the value together with the trace of requests issued. -/
def getIncendio (env : IncendiosBackend) (id : Nat) : IIncendio × List ApiCall :=
  (transformBackendItem env.now (env.getResp id),
   [ApiCall.get ("/incendios/" ++ toString id)])

/-- `getIncendios` (query-parameter building elided): one GET, every row
transformed. -/
def getIncendios (env : IncendiosBackend) : List IIncendio × List ApiCall :=
  (env.listResp.map (transformBackendItem env.now), [ApiCall.get "/incendios"])

/-- `createIncendio`: POST `/incendios`, then return
`getIncendio(response.data.id_incendio)`. -/
def createIncendio (env : IncendiosBackend) : IIncendio × List ApiCall :=
  let resp := env.postIncendioResp
  let fresh := getIncendio env resp.id_incendio
  (fresh.1, ApiCall.post "/incendios" :: fresh.2)

/-- `updateIncendio`: PUT `/incendios/{id}` (response discarded), then
return `getIncendio(id)`. -/
def updateIncendio (env : IncendiosBackend) (id : Nat) : IIncendio × List ApiCall :=
  let fresh := getIncendio env id
  (fresh.1, ApiCall.put ("/incendios/" ++ toString id) :: fresh.2)

/-- `updateIncendioStatus`: PATCH the estado endpoint (response discarded),
then return `getIncendio(id)`. -/
def updateIncendioStatus (env : IncendiosBackend) (id : Nat) (estado : String) :
    IIncendio × List ApiCall :=
  let fresh := getIncendio env id
  (fresh.1,
   ApiCall.patch ("/incendios/" ++ toString id ++ "/estado?nuevo_estado=" ++
     transformFrontendStatus estado) :: fresh.2)

/-- `updateIncendioPriority`: PATCH the prioridad endpoint (response
discarded), then return `getIncendio(id)`. -/
def updateIncendioPriority (env : IncendiosBackend) (id : Nat) (prioridad : String) :
    IIncendio × List ApiCall :=
  let fresh := getIncendio env id
  (fresh.1,
   ApiCall.patch ("/incendios/" ++ toString id ++ "/prioridad?nueva_prioridad=" ++
     transformFrontendPriority prioridad) :: fresh.2)

/-! ## JSON values (for the layer cache of `MapComponent`) -/

/-- A JSON value, as produced by `response.json()`. -/
inductive Json where
  | null
  | bool (b : Bool)
  | num (q : ℚ)
  | str (s : String)
  | arr (xs : List Json)
  | obj (fields : List (String × Json))

/-- JavaScript truthiness of a JSON value: `null`, `false`, `0` and `""`
are falsy; every array and every object is truthy. -/
def jsTruthy : Json → Bool
  | Json.null => false
  | Json.bool b => b
  | Json.num q => q != 0
  | Json.str s => s != ""
  | Json.arr _ => true
  | Json.obj _ => true

/-! ## Layer configuration and `loadLayerData` (`MapComponent.tsx`) -/

/-- One entry of `LAYER_CONFIGS`. -/
structure LayerConfig where
  id : String
  name : String
  file : String
  color : String
  enabled : Bool
  type : String
deriving DecidableEq

/-- The static `LAYER_CONFIGS` list. -/
def LAYER_CONFIGS : List LayerConfig :=
  [{ id := "centrales-enhanced", name := "Centrales Enhanced",
     file := "/recursos_actualizados_centrales_point_enhanced.geojson",
     color := "#4CAF50", enabled := true, type := "point-enhanced" },
   { id := "zonasur-activas", name := "Zona Sur (Activas)",
     file := "/recursos_actualizados_zonasur_activas.geojson",
     color := "#ff0000", enabled := true, type := "point-enhanced" },
   { id := "hidro-poligonos", name := "Cuerpos de Agua",
     file := "/hidro_polig_multipolygon.geojson",
     color := "#2563eb", enabled := true, type := "water-polygons" },
   { id := "golpe-unico", name := "Golpe Único",
     file := "/golpe_unico.geojson",
     color := "#dc2626", enabled := true, type := "priority-polygons" },
   { id := "red-vial", name := "Red Vial Valparaíso",
     file := "/red_vial_valparaiso.geojson",
     color := "#6b7280", enabled := true, type := "road-network" },
   { id := "comunas-administrativas", name := "Comunas Administrativas",
     file := "/comunas_administrativas.geojson",
     color := "#10b981", enabled := false, type := "administrative-regions" },
   { id := "sistema-electrico", name := "Sistema Eléctrico",
     file := "/sistema_electrico.geojson",
     color := "#eab308", enabled := false, type := "electrical-system" }]

/-- The slice of `MapComponent` state that `loadLayerData` touches.
`α` is the (opaque) type of an enhanced layer object. -/
structure MapLayersState (α : Type) where
  layerData : String → Option Json
  enhancedLayers : String → Option (List α)
  loadedLayers : String → Bool

/-- Environment of `loadLayerData`: the network (`fetchFile file = none`
models a rejected fetch or a non-ok response, both of which end in the
`catch` block) and the six layer-construction helpers, kept opaque since
only the caching behaviour is at stake. -/
structure LayerEnv (α : Type) where
  fetchFile : String → Option Json
  createRoadNetworkLayers : Json → List α
  createPriorityPolygonLayers : Json → List α
  createWaterPolygonLayers : Json → List α
  createEnhancedCentralesLayers : Json → String → List α
  createAdministrativeRegionLayers : Json → List α
  createElectricalSystemLayers : Json → List α

/-- `loadLayerData(layerId)`.  Returns the new state and the number of
fetches performed.  The early-return guard of the source is
`if (!config || layerData[layerId]) return;` — JavaScript truthiness of the
cached value. -/
def loadLayerData {α : Type} (env : LayerEnv α) (layerId : String)
    (s : MapLayersState α) : MapLayersState α × Nat :=
  match LAYER_CONFIGS.find? (fun c => c.id == layerId) with
  | none => (s, 0)
  | some config =>
    if (match s.layerData layerId with
        | none => false
        | some v => jsTruthy v) then (s, 0)
    else
      match env.fetchFile config.file with
      | none => (s, 1)
      | some data =>
        let createdLayers : List α :=
          if config.type = "road-network" then env.createRoadNetworkLayers data
          else if config.type = "priority-polygons" then
            env.createPriorityPolygonLayers data
          else if config.type = "water-polygons" then
            env.createWaterPolygonLayers data
          else if config.type = "point-enhanced" then
            env.createEnhancedCentralesLayers data config.id
          else if config.type = "administrative-regions" then
            env.createAdministrativeRegionLayers data
          else if config.type = "electrical-system" then
            env.createElectricalSystemLayers data
          else []
        ({ layerData := fun k => if k = layerId then some data else s.layerData k
           enhancedLayers := fun k =>
             if k = layerId then some createdLayers else s.enhancedLayers k
           loadedLayers := fun k => k == layerId || s.loadedLayers k }, 1)

/-! ## `handleDeclareIncident` -/

/-- The alert text of the declare-incident catch block. -/
def declareErrorMsg : String :=
  "Error al declarar el incendio. Por favor, inténtelo de nuevo."

/-- Oracle for the declare POST: `none` models a rejected fetch; otherwise
the pair of `response.ok` and the parsed body. -/
structure DeclareEnv where
  declareResp : Option (Bool × IncidentData)

/-- The slice of component state touched by `handleDeclareIncident`. -/
structure DeclareUIState where
  incendioData : Option IncidentData
  incidentDeclared : Bool
  propagationCone : Option FeatureCollection
  showTooltip : Bool
  showDrawer : Bool
  isSubmitting : Bool
  alerts : List String

/-- `handleDeclareIncident`: set `isSubmitting`, POST, on a non-ok status
throw into the catch block (alert), otherwise store the data, build the
cone (which itself may throw, still inside the `try`), and open the
drawer. `finally` clears `isSubmitting` on every path.  The second
component counts the fetches issued (the source performs no retry). -/
noncomputable def handleDeclareIncident (env : DeclareEnv) (s : DeclareUIState) :
    DeclareUIState × Nat :=
  let s1 := { s with isSubmitting := true }
  match env.declareResp with
  | none =>
    ({ s1 with alerts := s1.alerts ++ [declareErrorMsg], isSubmitting := false }, 1)
  | some (ok, data) =>
    if !ok then
      ({ s1 with alerts := s1.alerts ++ [declareErrorMsg], isSubmitting := false }, 1)
    else
      let s2 := { s1 with incendioData := some data, incidentDeclared := true }
      match createPropagationCone data with
      | Except.error _ =>
        ({ s2 with alerts := s2.alerts ++ [declareErrorMsg], isSubmitting := false }, 1)
      | Except.ok cone =>
        let s3 := match cone with
          | some c => { s2 with propagationCone := some c }
          | none => s2
        ({ s3 with showTooltip := false, showDrawer := true, isSubmitting := false }, 1)

/-! ## `handleCoordinateSubmit` -/

/-- The alert text of the invalid-coordinates branch. -/
def invalidCoordsMsg : String := "Por favor ingresa coordenadas válidas"

/-- The slice of component state touched by `handleCoordinateSubmit`;
`placemark` is a `(latitude, longitude)` pair. -/
structure CoordSubmitState where
  placemark : ℚ × ℚ
  coordinateInput : String × String
  showEnhancedSearch : Bool
  showTooltip : Bool
  alerts : List String

/-- `handleCoordinateSubmit`.  `parseFloat` is the JavaScript builtin,
passed in abstractly; `none` models `NaN`.  On valid coordinates the
placemark moves, the inputs are cleared, the enhanced search closes and the
tooltip is hidden (the delayed re-show via `setTimeout` is not modelled);
otherwise only an alert is pushed. -/
def handleCoordinateSubmit (parseFloat : String → Option ℚ)
    (s : CoordSubmitState) : CoordSubmitState :=
  match parseFloat s.coordinateInput.1, parseFloat s.coordinateInput.2 with
  | some lat, some lng =>
    if -90 ≤ lat ∧ lat ≤ 90 ∧ -180 ≤ lng ∧ lng ≤ 180 then
      { s with placemark := (lat, lng)
               coordinateInput := ("", "")
               showEnhancedSearch := false
               showTooltip := false }
    else { s with alerts := s.alerts ++ [invalidCoordsMsg] }
  | _, _ => { s with alerts := s.alerts ++ [invalidCoordsMsg] }

/-! ## Concrete inputs used by counterexamples and witnesses -/

/-- The eight recognised Spanish cardinal names (the keys of `cardinalMap`). -/
def cardinalNames : List String :=
  ["Norte", "Noreste", "Este", "Sureste", "Sur", "Suroeste", "Oeste", "Noroeste"]

/-- Complete weather data (found, wind 10 km/h from 90°, risk `ALTO`,
propagation towards `Norte`). -/
def waFull : WeatherAnalysis :=
  { found := true
    current_conditions := some { wind_speed_kmh := some 10, wind_direction_degrees := some 90 }
    fire_propagation := some { risk_level := some "ALTO", direccion_aproximada := some "Norte" } }

/-- Complete weather data but no `coordinates` object: the input on which
`createPropagationCone` throws. -/
def dThrow : IncidentData :=
  { coordinates := none, weather_analysis := some waFull }

/-- A fully populated incident input. -/
def dOk : IncidentData :=
  { coordinates := some { latitude := -33, longitude := -71 }
    weather_analysis := some waFull }

/-- Incident at the origin, wind 10 km/h, risk `BAJO`, no approximate
direction. -/
def dC2 : IncidentData :=
  { coordinates := some { latitude := 0, longitude := 0 }
    weather_analysis := some
      { found := true
        current_conditions := some { wind_speed_kmh := some 10, wind_direction_degrees := some 90 }
        fire_propagation := some { risk_level := some "BAJO", direccion_aproximada := none } } }

/-- Like `dC2` but with propagation direction `Norte`. -/
def dNorte : IncidentData :=
  { coordinates := some { latitude := 0, longitude := 0 }
    weather_analysis := some
      { found := true
        current_conditions := some { wind_speed_kmh := some 10, wind_direction_degrees := some 90 }
        fire_propagation := some { risk_level := some "BAJO", direccion_aproximada := some "Norte" } } }

/-- Like `dNorte` but with propagation direction `Este`; agrees with
`dNorte` on coordinates, wind speed, wind direction and risk level. -/
def dEste : IncidentData :=
  { coordinates := some { latitude := 0, longitude := 0 }
    weather_analysis := some
      { found := true
        current_conditions := some { wind_speed_kmh := some 10, wind_direction_degrees := some 90 }
        fire_propagation := some { risk_level := some "BAJO", direccion_aproximada := some "Este" } } }

/-- Complete and found weather data whose wind speed is exactly `0`. -/
def dZeroWind : IncidentData :=
  { coordinates := some { latitude := -33, longitude := -71 }
    weather_analysis := some
      { found := true
        current_conditions := some { wind_speed_kmh := some 0, wind_direction_degrees := some 90 }
        fire_propagation := some { risk_level := some "ALTO", direccion_aproximada := some "Norte" } } }

/-- A backend row with a backend-only status spelling and no priority. -/
def itemRaw : BackendIncendio :=
  { id_incendio := 7, nombre := "Incendio Quilpué", descripcion := none
    latitude := -33, longitude := -71, estado := some "EN_COMBATE"
    prioridad := none, superficie_afectada := some 0, causa := none
    recursos_asignados := none, observaciones := none
    created_at := some "2024-01-01T00:00:00Z", updated_at := none }

/-- A concrete backend oracle. -/
def envInc : IncendiosBackend :=
  { now := "2024-01-02T00:00:00Z", listResp := [itemRaw]
    getResp := fun _ => itemRaw, postIncendioResp := itemRaw }

/-- The empty layer cache. -/
def emptyMapLayers : MapLayersState Unit :=
  { layerData := fun _ => none, enhancedLayers := fun _ => none
    loadedLayers := fun _ => false }

/-- A network that serves the JSON value `null` for every layer file. -/
def envNullFetch : LayerEnv Unit :=
  { fetchFile := fun _ => some Json.null
    createRoadNetworkLayers := fun _ => []
    createPriorityPolygonLayers := fun _ => []
    createWaterPolygonLayers := fun _ => []
    createEnhancedCentralesLayers := fun _ _ => []
    createAdministrativeRegionLayers := fun _ => []
    createElectricalSystemLayers := fun _ => [] }

/-- A network that serves a (truthy) GeoJSON object for every layer file. -/
def envObjFetch : LayerEnv Unit :=
  { fetchFile := fun _ => some (Json.obj [("type", Json.str "FeatureCollection")])
    createRoadNetworkLayers := fun _ => []
    createPriorityPolygonLayers := fun _ => []
    createWaterPolygonLayers := fun _ => []
    createEnhancedCentralesLayers := fun _ _ => []
    createAdministrativeRegionLayers := fun _ => []
    createElectricalSystemLayers := fun _ => [] }

/-- The cache after loading `red-vial` from `envNullFetch`: the stored layer
data is the falsy JSON value `null`. -/
def cacheAfterNull : MapLayersState Unit :=
  (loadLayerData envNullFetch "red-vial" emptyMapLayers).1

/-- A cache that already holds a truthy GeoJSON object for `red-vial`. -/
def cacheWithObj : MapLayersState Unit :=
  { layerData := fun k =>
      if k = "red-vial" then some (Json.obj [("type", Json.str "FeatureCollection")]) else none
    enhancedLayers := fun _ => none
    loadedLayers := fun k => k == "red-vial" }

/-- A blank declare-incident UI state. -/
def declareState0 : DeclareUIState :=
  { incendioData := none, incidentDeclared := false, propagationCone := none
    showTooltip := true, showDrawer := false, isSubmitting := false, alerts := [] }

/-- A coordinate-form state whose two inputs both read `10`. -/
def coordState0 : CoordSubmitState :=
  { placemark := (-33, -71), coordinateInput := ("10", "10")
    showEnhancedSearch := true, showTooltip := true, alerts := [] }

/-- A parse oracle mapping the literal `10` to the number 10 and
everything else to `NaN`. -/
def parseTen : String → Option ℚ :=
  fun t => if t = "10" then some 10 else none

/-! ## Cone lemmas -/

/-- Success characterisation of `createPropagationCone`: with every guard
satisfied the result is the cone feature collection. -/
theorem createPropagationCone_success (d : IncidentData) (wa : WeatherAnalysis)
    (cc : CurrentConditions) (coords : Coordinates) (fp : FirePropagation)
    (ws wd : ℚ) (rl : String)
    (hwa : d.weather_analysis = some wa) (hf : wa.found = true)
    (hcc : wa.current_conditions = some cc) (hco : d.coordinates = some coords)
    (hfp : wa.fire_propagation = some fp)
    (hws : cc.wind_speed_kmh = some ws) (hwd : cc.wind_direction_degrees = some wd)
    (hrl : fp.risk_level = some rl)
    (h1 : ws ≠ 0) (h2 : wd ≠ 0) (h3 : rl ≠ "") :
    createPropagationCone d =
      Except.ok (some (coneResult coords ws wd rl fp.direccion_aproximada)) := by
  unfold createPropagationCone
  simp only [hwa, hf, hcc, hco, hfp, hws, hwd, hrl]
  simp [h1, h2, h3]

/-- The ring of a successfully produced cone, with the geometric arguments
given explicitly. -/
theorem coneRing_success (d : IncidentData) (wa : WeatherAnalysis)
    (cc : CurrentConditions) (coords : Coordinates) (fp : FirePropagation)
    (ws wd la lo : ℚ) (rl : String) (dir : Option String)
    (hwa : d.weather_analysis = some wa) (hf : wa.found = true)
    (hcc : wa.current_conditions = some cc) (hco : d.coordinates = some coords)
    (hfp : wa.fire_propagation = some fp)
    (hws : cc.wind_speed_kmh = some ws) (hwd : cc.wind_direction_degrees = some wd)
    (hrl : fp.risk_level = some rl)
    (hla : coords.latitude = la) (hlo : coords.longitude = lo)
    (hdir : fp.direccion_aproximada = dir)
    (h1 : ws ≠ 0) (h2 : wd ≠ 0) (h3 : rl ≠ "") :
    coneRing d = some (coneVertices la lo
      (coneLengthOf ws rl) (getDegreesFromCardinal dir)) := by
  subst hla hlo hdir
  unfold coneRing
  rw [createPropagationCone_success d wa cc coords fp ws wd rl hwa hf hcc hco hfp
    hws hwd hrl h1 h2 h3]
  rfl

/-- Inversion: a produced ring always is `coneVertices` at the incident
coordinates, the cone length from wind speed and risk, and the degrees of
the approximate direction. -/
theorem coneRing_inv (d : IncidentData) (r : List (ℝ × ℝ)) (h : coneRing d = some r) :
    ∃ coords ws wd rl,
      d.coordinates = some coords ∧ windSpeedOf d = some ws ∧
        windDirOf d = some wd ∧ riskOf d = some rl ∧
        ws ≠ 0 ∧ wd ≠ 0 ∧ rl ≠ "" ∧
        r = coneVertices coords.latitude coords.longitude (coneLengthOf ws rl)
          (getDegreesFromCardinal (direccionOf d)) := by
  obtain ⟨co, wao⟩ := d
  cases wao with
  | none => simp [coneRing, createPropagationCone] at h
  | some wa =>
    obtain ⟨fnd, cco, fpo⟩ := wa
    cases fnd with
    | false => simp [coneRing, createPropagationCone] at h
    | true =>
      cases cco with
      | none => simp [coneRing, createPropagationCone] at h
      | some cc =>
        cases co with
        | none => simp [coneRing, createPropagationCone] at h
        | some coords =>
          cases fpo with
          | none => simp [coneRing, createPropagationCone] at h
          | some fp =>
            obtain ⟨wso, wdo⟩ := cc
            obtain ⟨rlo, dir⟩ := fp
            cases wso with
            | none => simp [coneRing, createPropagationCone] at h
            | some ws =>
              cases wdo with
              | none => simp [coneRing, createPropagationCone] at h
              | some wd =>
                cases rlo with
                | none => simp [coneRing, createPropagationCone] at h
                | some rl =>
                  by_cases hz : ws = 0 ∨ wd = 0 ∨ rl = ""
                  · simp [coneRing, createPropagationCone, hz] at h
                  · push_neg at hz
                    obtain ⟨h1, h2, h3⟩ := hz
                    refine ⟨coords, ws, wd, rl, rfl, by simp [windSpeedOf],
                      by simp [windDirOf], by simp [riskOf], h1, h2, h3, ?_⟩
                    simp [coneRing, createPropagationCone, coneResult, h1, h2, h3,
                      direccionOf] at h ⊢
                    exact h.symm

/-! ## Claim C1 -/

/-- Claim C1, counterexample: the claim says `createPropagationCone` never
throws, but on an input whose weather analysis is complete, found and
truthy while the `coordinates` object is absent, the source destructures
`incidentData.coordinates` without optional chaining and raises a
`TypeError` (modelled as `Except.error ()`). -/
theorem createPropagationCone_throws_on_missing_coordinates :
    createPropagationCone dThrow = Except.error () := rfl

/-- Claim C1 as amended: provided the `coordinates` object is present,
`createPropagationCone` never throws, returns `null` exactly when the
input is insufficient (weather analysis absent, `found` falsy,
`current_conditions` absent, or any of wind speed, wind direction, risk
level falsy), and otherwise returns a FeatureCollection with exactly one
Feature carrying a Polygon geometry. -/
theorem cone_null_iff_insufficient (d : IncidentData) (c : Coordinates)
    (hc : d.coordinates = some c) :
    (∀ e : Unit, createPropagationCone d ≠ Except.error e) ∧
    (createPropagationCone d = Except.ok none ↔ insufficientInput d = true) ∧
    (insufficientInput d = false →
      ∃ fc, createPropagationCone d = Except.ok (some fc) ∧
        fc.type = "FeatureCollection" ∧
        ∃ f, fc.features = [f] ∧ f.geometry.type = "Polygon" ∧
          ∃ r, f.geometry.coordinates = [r]) := by
  obtain ⟨co, wao⟩ := d
  simp only [IncidentData.coordinates] at hc
  subst hc
  cases wao with
  | none => simp [createPropagationCone, insufficientInput]
  | some wa =>
    obtain ⟨fnd, cco, fpo⟩ := wa
    cases fnd with
    | false => simp [createPropagationCone, insufficientInput]
    | true =>
      cases cco with
      | none => simp [createPropagationCone, insufficientInput]
      | some cc =>
        obtain ⟨wso, wdo⟩ := cc
        cases fpo with
        | none =>
          simp [createPropagationCone, insufficientInput, numTruthy, strTruthy]
        | some fp =>
          obtain ⟨rlo, dir⟩ := fp
          cases wso with
          | none => simp [createPropagationCone, insufficientInput, numTruthy]
          | some ws =>
            cases wdo with
            | none => simp [createPropagationCone, insufficientInput, numTruthy]
            | some wd =>
              cases rlo with
              | none =>
                simp [createPropagationCone, insufficientInput, numTruthy, strTruthy]
              | some rl =>
                by_cases hz : ws = 0 ∨ wd = 0 ∨ rl = ""
                · constructor
                  · simp [createPropagationCone, hz]
                  constructor
                  · simp [createPropagationCone, insufficientInput, numTruthy,
                      strTruthy, hz]
                    rcases hz with h | h | h <;> simp [h]
                  · intro hins
                    exfalso
                    rcases hz with h | h | h <;>
                      simp [insufficientInput, numTruthy, strTruthy, h] at hins
                · push_neg at hz
                  obtain ⟨h1, h2, h3⟩ := hz
                  constructor
                  · simp [createPropagationCone, h1, h2, h3]
                  constructor
                  · simp [createPropagationCone, insufficientInput, numTruthy,
                      strTruthy, h1, h2, h3, coneResult]
                  · intro _
                    refine ⟨coneResult c ws wd rl dir, ?_, rfl, ?_⟩
                    · simp [createPropagationCone, h1, h2, h3]
                    · exact ⟨_, rfl, rfl, _, rfl⟩

/-- Witness for the amended claim C1 at the fully populated input `dOk`. -/
theorem cone_null_iff_insufficient_witness :
    (∀ e : Unit, createPropagationCone dOk ≠ Except.error e) ∧
    (createPropagationCone dOk = Except.ok none ↔ insufficientInput dOk = true) ∧
    (insufficientInput dOk = false →
      ∃ fc, createPropagationCone dOk = Except.ok (some fc) ∧
        fc.type = "FeatureCollection" ∧
        ∃ f, fc.features = [f] ∧ f.geometry.type = "Polygon" ∧
          ∃ r, f.geometry.coordinates = [r]) :=
  cone_null_iff_insufficient dOk { latitude := -33, longitude := -71 } rfl

/-! ## Closed-form evaluations of the cone ring -/

/-- The cone ring at the origin with cone length 1100 m pointing due north
(bearing 0°). -/
theorem coneVertices_north_eval :
    coneVertices 0 0 1100 0 =
      [((0 : ℝ), (0 : ℝ)),
       (1100 / 111000 * (1 / 2), 1100 / 111000 * (Real.sqrt 3 / 2)),
       (0, 1100 / 111000),
       (1100 / 111000 * -(1 / 2), 1100 / 111000 * (Real.sqrt 3 / 2)),
       (0, 0)] := by
  have hm : ((90 : ℝ) - ((0 : ℚ) : ℝ)) * (Real.pi / 180) = Real.pi / 2 := by
    push_cast; ring
  simp only [coneVertices, hm]
  rw [Real.cos_pi_div_two_sub, Real.sin_pi_div_two_sub, Real.cos_add, Real.sin_add]
  push_cast
  norm_num [Real.cos_pi_div_two, Real.sin_pi_div_two, Real.cos_pi_div_six,
    Real.sin_pi_div_six, Real.cos_zero]

/-- The cone ring at the origin with cone length 1100 m pointing due east
(bearing 90°). -/
theorem coneVertices_east_eval :
    coneVertices 0 0 1100 90 =
      [((0 : ℝ), (0 : ℝ)),
       (1100 / 111000 * (Real.sqrt 3 / 2), 1100 / 111000 * -(1 / 2)),
       (1100 / 111000, 0),
       (1100 / 111000 * (Real.sqrt 3 / 2), 1100 / 111000 * (1 / 2)),
       (0, 0)] := by
  have hm : ((90 : ℝ) - ((90 : ℚ) : ℝ)) * (Real.pi / 180) = 0 := by push_cast; ring
  simp only [coneVertices, hm]
  rw [zero_sub, zero_add, Real.cos_neg, Real.sin_neg]
  push_cast
  norm_num [Real.cos_zero, Real.sin_zero, Real.cos_pi_div_six, Real.sin_pi_div_six]

/-- Four pairwise-distinct values cannot all lie in a set of three values. -/
theorem four_not_covered_by_three {α : Type} {v0 v1 v2 v3 a b c : α}
    (ne01 : v0 ≠ v1) (ne02 : v0 ≠ v2) (ne03 : v0 ≠ v3)
    (ne12 : v1 ≠ v2) (ne13 : v1 ≠ v3) (ne23 : v2 ≠ v3)
    (h0 : v0 = a ∨ v0 = b ∨ v0 = c) (h1 : v1 = a ∨ v1 = b ∨ v1 = c)
    (h2 : v2 = a ∨ v2 = b ∨ v2 = c) (h3 : v3 = a ∨ v3 = b ∨ v3 = c) : False := by
  rcases h0 with rfl | rfl | rfl <;> rcases h1 with h1 | h1 | h1 <;>
    rcases h2 with h2 | h2 | h2 <;> rcases h3 with h3 | h3 | h3 <;> simp_all

/-- The list shape of every cone ring: origin, left base, tip, right base,
origin again. -/
theorem coneVertices_shape (la lo cl pd : ℚ) :
    ∃ o a t b, coneVertices la lo cl pd = [o, a, t, b, o] := ⟨_, _, _, _, rfl⟩

/-- Numeric evaluation of the cone length at wind speed 10 km/h and risk
`BAJO`: `max(550, 100) * 1 * 2 = 1100`. -/
theorem coneLengthOf_bajo_eval : coneLengthOf 10 "BAJO" = 1100 := by
  rw [coneLengthOf, if_neg (by decide : ¬("BAJO" = "ALTO")),
    if_neg (by decide : ¬("BAJO" = "MEDIO")),
    max_eq_left (by norm_num : (100 : ℚ) ≤ 10 * 55)]
  norm_num

/-! ## Claim C2 -/

/-- Claim C2, counterexample: at a concrete input the produced ring is
closed but has four pairwise-distinct vertices (origin, left base, tip,
right base), so it cannot be written with only three distinct vertices —
the polygon is a quadrilateral fan, not a triangle. -/
theorem cone_ring_not_three_distinct :
    ∃ r, coneRing dC2 = some r ∧ r.head? = r.getLast? ∧
      ¬ ∃ a b c : ℝ × ℝ, ∀ v ∈ r, v = a ∨ v = b ∨ v = c := by
  have hr : coneRing dC2 = some (coneVertices 0 0 (coneLengthOf 10 "BAJO")
      (getDegreesFromCardinal none)) :=
    coneRing_success dC2 _ _ _ _ 10 90 0 0 "BAJO" none rfl rfl rfl rfl rfl rfl rfl rfl
      rfl rfl rfl (by norm_num) (by norm_num) (by decide)
  rw [coneLengthOf_bajo_eval,
    show getDegreesFromCardinal none = (0 : ℚ) from rfl, coneVertices_north_eval] at hr
  refine ⟨_, hr, rfl, ?_⟩
  rintro ⟨a, b, c, hcov⟩
  have h0 := hcov ((0 : ℝ), (0 : ℝ)) (by simp)
  have h1 := hcov (1100 / 111000 * (1 / 2), 1100 / 111000 * (Real.sqrt 3 / 2)) (by simp)
  have h2 := hcov ((0 : ℝ), 1100 / 111000) (by simp)
  have h3 := hcov (1100 / 111000 * -(1 / 2), 1100 / 111000 * (Real.sqrt 3 / 2)) (by simp)
  have ne01 : (((0 : ℝ), (0 : ℝ)) : ℝ × ℝ) ≠
      (1100 / 111000 * (1 / 2), 1100 / 111000 * (Real.sqrt 3 / 2)) := by
    intro h
    have h' := congrArg Prod.fst h
    norm_num at h'
  have ne02 : (((0 : ℝ), (0 : ℝ)) : ℝ × ℝ) ≠ ((0 : ℝ), 1100 / 111000) := by
    intro h
    have h' := congrArg Prod.snd h
    norm_num at h'
  have ne03 : (((0 : ℝ), (0 : ℝ)) : ℝ × ℝ) ≠
      (1100 / 111000 * -(1 / 2), 1100 / 111000 * (Real.sqrt 3 / 2)) := by
    intro h
    have h' := congrArg Prod.fst h
    norm_num at h'
  have ne12 : ((1100 / 111000 * (1 / 2), 1100 / 111000 * (Real.sqrt 3 / 2)) : ℝ × ℝ) ≠
      ((0 : ℝ), 1100 / 111000) := by
    intro h
    have h' := congrArg Prod.fst h
    norm_num at h'
  have ne13 : ((1100 / 111000 * (1 / 2), 1100 / 111000 * (Real.sqrt 3 / 2)) : ℝ × ℝ) ≠
      (1100 / 111000 * -(1 / 2), 1100 / 111000 * (Real.sqrt 3 / 2)) := by
    intro h
    have h' := congrArg Prod.fst h
    norm_num at h'
  have ne23 : (((0 : ℝ), 1100 / 111000) : ℝ × ℝ) ≠
      (1100 / 111000 * -(1 / 2), 1100 / 111000 * (Real.sqrt 3 / 2)) := by
    intro h
    have h' := congrArg Prod.fst h
    norm_num at h'
  exact four_not_covered_by_three ne01 ne02 ne03 ne12 ne13 ne23 h0 h1 h2 h3

/-- Claim C2 as amended: every produced cone polygon is a single closed
linear ring — the first coordinate equals the last — whose vertex list is
origin, left base, tip, right base and the closing origin: four listed
vertices (generically a quadrilateral), not three. -/
theorem cone_ring_closed_quad (d : IncidentData) (r : List (ℝ × ℝ))
    (h : coneRing d = some r) :
    ∃ o a t b, r = [o, a, t, b, o] := by
  obtain ⟨coords, ws, wd, rl, _, _, _, _, _, _, _, hr⟩ := coneRing_inv d r h
  rw [hr]
  exact coneVertices_shape _ _ _ _

/-- Witness for the amended claim C2 at the fully populated input `dOk`. -/
theorem cone_ring_closed_quad_witness :
    coneRing dOk = some (coneVertices (-33) (-71) (coneLengthOf 10 "ALTO")
        (getDegreesFromCardinal (some "Norte"))) ∧
    ∃ o a t b, coneVertices (-33 : ℚ) (-71 : ℚ) (coneLengthOf 10 "ALTO")
        (getDegreesFromCardinal (some "Norte")) = [o, a, t, b, o] := by
  have h : coneRing dOk = some (coneVertices (-33) (-71) (coneLengthOf 10 "ALTO")
      (getDegreesFromCardinal (some "Norte"))) :=
    coneRing_success dOk _ _ _ _ 10 90 (-33) (-71) "ALTO" (some "Norte") rfl rfl rfl rfl
      rfl rfl rfl rfl rfl rfl rfl (by norm_num) (by norm_num) (by decide)
  exact ⟨h, cone_ring_closed_quad dOk _ h⟩

/-! ## Claim C3 -/

/-- Claim C3, counterexample: `dNorte` and `dEste` agree on the incident
coordinates, wind speed, wind direction and risk level, yet produce
different cone polygons — the geometry also depends on
`fire_propagation.direccion_aproximada`, which the claim omits (the
`wind_direction_degrees` value itself never enters the geometry). -/
theorem cone_determinism_counterexample :
    dNorte.coordinates = dEste.coordinates ∧
    windSpeedOf dNorte = windSpeedOf dEste ∧
    windDirOf dNorte = windDirOf dEste ∧
    riskOf dNorte = riskOf dEste ∧
    coneRing dNorte ≠ coneRing dEste := by
  refine ⟨rfl, rfl, rfl, rfl, ?_⟩
  have hN : coneRing dNorte = some (coneVertices 0 0 (coneLengthOf 10 "BAJO")
      (getDegreesFromCardinal (some "Norte"))) :=
    coneRing_success dNorte _ _ _ _ 10 90 0 0 "BAJO" (some "Norte") rfl rfl rfl rfl
      rfl rfl rfl rfl rfl rfl rfl (by norm_num) (by norm_num) (by decide)
  have hE : coneRing dEste = some (coneVertices 0 0 (coneLengthOf 10 "BAJO")
      (getDegreesFromCardinal (some "Este"))) :=
    coneRing_success dEste _ _ _ _ 10 90 0 0 "BAJO" (some "Este") rfl rfl rfl rfl
      rfl rfl rfl rfl rfl rfl rfl (by norm_num) (by norm_num) (by decide)
  rw [coneLengthOf_bajo_eval] at hN hE
  rw [show getDegreesFromCardinal (some "Norte") = (0 : ℚ) from by decide,
    coneVertices_north_eval] at hN
  rw [show getDegreesFromCardinal (some "Este") = (90 : ℚ) from by decide,
    coneVertices_east_eval] at hE
  rw [hN, hE]
  intro h
  have h' := congrArg (fun o => (o.map (fun r => r.get? 2)) ) h
  simp only [Option.map_some, List.get?] at h'
  simp at h'

/-- Claim C3 as amended: the cone geometry is a function of the incident
coordinates, wind speed, risk level and the approximate propagation
direction; two inputs agreeing on those (and both producing a cone)
produce equal rings.  Wind direction is only a guard, and
`direccion_aproximada` must be added to the claim's agreement set. -/
theorem cone_two_run_determinism (d1 d2 : IncidentData) (r1 r2 : List (ℝ × ℝ))
    (hco : d1.coordinates = d2.coordinates)
    (hws : windSpeedOf d1 = windSpeedOf d2)
    (hrl : riskOf d1 = riskOf d2)
    (hdir : direccionOf d1 = direccionOf d2)
    (h1 : coneRing d1 = some r1) (h2 : coneRing d2 = some r2) :
    r1 = r2 := by
  obtain ⟨c1, ws1, wd1, rl1, hc1, hw1, _, hr1, _, _, _, he1⟩ := coneRing_inv d1 r1 h1
  obtain ⟨c2, ws2, wd2, rl2, hc2, hw2, _, hr2, _, _, _, he2⟩ := coneRing_inv d2 r2 h2
  rw [hc1, hc2] at hco
  rw [hw1, hw2] at hws
  rw [hr1, hr2] at hrl
  cases hco
  cases hws
  cases hrl
  rw [he1, he2, hdir]

/-- Witness for the amended claim C3: two runs on the (equal) input
`dNorte` yield the same ring. -/
theorem cone_two_run_determinism_witness :
    coneRing dNorte = some (coneVertices 0 0 (coneLengthOf 10 "BAJO")
        (getDegreesFromCardinal (some "Norte"))) ∧
    coneVertices 0 0 (coneLengthOf 10 "BAJO") (getDegreesFromCardinal (some "Norte")) =
      coneVertices 0 0 (coneLengthOf 10 "BAJO") (getDegreesFromCardinal (some "Norte")) := by
  have h : coneRing dNorte = some (coneVertices 0 0 (coneLengthOf 10 "BAJO")
      (getDegreesFromCardinal (some "Norte"))) :=
    coneRing_success dNorte _ _ _ _ 10 90 0 0 "BAJO" (some "Norte") rfl rfl rfl rfl
      rfl rfl rfl rfl rfl rfl rfl (by norm_num) (by norm_num) (by decide)
  exact ⟨h, cone_two_run_determinism dNorte dNorte _ _ rfl rfl rfl rfl h h⟩

/-! ## Claim C8 -/

/-- Claim C8: the missing-data guard tests JavaScript falsiness, so a wind
speed of exactly 0 km/h or a wind direction of exactly 0° (a due-north
wind) makes `createPropagationCone` return `null` even when the weather
analysis is otherwise complete and found. -/
theorem cone_null_on_zero_wind (d : IncidentData) (wa : WeatherAnalysis)
    (cc : CurrentConditions) (c : Coordinates)
    (hwa : d.weather_analysis = some wa) (hf : wa.found = true)
    (hcc : wa.current_conditions = some cc) (hc : d.coordinates = some c)
    (h : cc.wind_speed_kmh = some 0 ∨ cc.wind_direction_degrees = some 0) :
    createPropagationCone d = Except.ok none := by
  unfold createPropagationCone
  simp only [hwa, hf, hcc, hc]
  cases hfp : wa.fire_propagation with
  | none => simp
  | some fp =>
    rcases h with h | h
    · rw [h]
      cases hwd : cc.wind_direction_degrees with
      | none => simp
      | some wd =>
        cases hrl : fp.risk_level with
        | none => simp [hrl]
        | some rl => simp [hrl]
    · rw [h]
      cases hws : cc.wind_speed_kmh with
      | none => simp
      | some ws =>
        cases hrl : fp.risk_level with
        | none => simp [hrl]
        | some rl => simp [hrl]

/-- Witness for claim C8 at a concrete input with wind speed 0. -/
theorem cone_null_on_zero_wind_witness :
    createPropagationCone dZeroWind = Except.ok none :=
  cone_null_on_zero_wind dZeroWind _ _ _ rfl rfl rfl rfl (Or.inl rfl)

/-! ## Claim C9 -/

/-- Claim C9: for every direction string that is not one of the eight
Spanish cardinal names — including the `undefined` direction —
`getDegreesFromCardinal` returns 0, the due-north bearing. -/
theorem getDegreesFromCardinal_unrecognised (s : Option String)
    (h : ∀ n, s = some n → n ∉ cardinalNames) :
    getDegreesFromCardinal s = 0 := by
  cases s with
  | none => rfl
  | some x =>
    have hx := h x rfl
    simp only [cardinalNames, List.mem_cons, List.not_mem_nil, or_false, not_or] at hx
    obtain ⟨h1, h2, h3, h4, h5, h6, h7, h8⟩ := hx
    simp [getDegreesFromCardinal, cardinalMap, jsOrZero, h1, h2, h3, h4, h5, h6, h7, h8]

/-- Witness for claim C9 at the lowercase string `norte`, which the
case-sensitive lookup does not recognise. -/
theorem getDegreesFromCardinal_unrecognised_witness :
    getDegreesFromCardinal (some "norte") = 0 :=
  getDegreesFromCardinal_unrecognised (some "norte") (by
    intro n hn
    injection hn with h2
    subst h2
    decide)

/-! ## Claim C4 -/

/-- The backend-status transformation always lands in the frontend status
enum. -/
theorem transformBackendStatus_mem (o : Option String) :
    transformBackendStatus o ∈
      (["activo", "controlado", "extinguido", "cancelado"] : List String) := by
  cases o with
  | none => simp [transformBackendStatus, jsOrStr]
  | some s =>
    simp only [transformBackendStatus, Option.some_bind]
    unfold statusMap
    split_ifs <;> simp [jsOrStr]

/-- The backend-priority transformation always lands in the frontend
priority enum. -/
theorem transformBackendPriority_mem (o : Option String) :
    transformBackendPriority o ∈
      (["baja", "media", "alta", "critica"] : List String) := by
  cases o with
  | none => simp [transformBackendPriority, jsOrStr]
  | some s =>
    simp only [transformBackendPriority, Option.some_bind]
    unfold priorityMap
    split_ifs <;> simp [jsOrStr]

/-- Claim C4: every incident record returned by `getIncendios` or
`getIncendio` has `estado` in the four-element status enum and `prioridad`
in the four-element priority enum, whatever strings the backend sent
(unrecognised statuses map to `activo`, unrecognised priorities to
`media`). -/
theorem incendio_enum_membership (env : IncendiosBackend) (id : Nat) (r : IIncendio)
    (h : r ∈ (getIncendios env).1 ∨ r = (getIncendio env id).1) :
    r.estado ∈ (["activo", "controlado", "extinguido", "cancelado"] : List String) ∧
    r.prioridad ∈ (["baja", "media", "alta", "critica"] : List String) := by
  have hr : ∃ item, r = transformBackendItem env.now item := by
    rcases h with h | h
    · simp only [getIncendios] at h
      rcases List.mem_map.mp h with ⟨item, _, hi⟩
      exact ⟨item, hi.symm⟩
    · exact ⟨env.getResp id, by rw [h]; rfl⟩
  obtain ⟨item, rfl⟩ := hr
  exact ⟨transformBackendStatus_mem item.estado, transformBackendPriority_mem item.prioridad⟩

/-- Witness for claim C4: the record obtained from the raw backend row
`itemRaw` (status `EN_COMBATE`, no priority) is in both enums. -/
theorem incendio_enum_membership_witness :
    (transformBackendItem envInc.now (envInc.getResp 7)).estado ∈
      (["activo", "controlado", "extinguido", "cancelado"] : List String) ∧
    (transformBackendItem envInc.now (envInc.getResp 7)).prioridad ∈
      (["baja", "media", "alta", "critica"] : List String) :=
  incendio_enum_membership envInc 7 (transformBackendItem envInc.now (envInc.getResp 7))
    (Or.inr rfl)

/-! ## Claim C5 -/

/-- Claim C5: each mutation helper returns the incident obtained by a fresh
GET issued after the mutation request — the value is
`transformBackendItem` of the GET response, never of the mutation
response (of which only the POST's `id_incendio` is read, to address the
GET) — and the request trace is exactly the mutation followed by the GET. -/
theorem mutations_refetch (env : IncendiosBackend) (id : Nat) (estado prioridad : String) :
    createIncendio env =
      (transformBackendItem env.now (env.getResp env.postIncendioResp.id_incendio),
        [ApiCall.post "/incendios",
         ApiCall.get ("/incendios/" ++ toString env.postIncendioResp.id_incendio)]) ∧
    updateIncendio env id =
      (transformBackendItem env.now (env.getResp id),
        [ApiCall.put ("/incendios/" ++ toString id),
         ApiCall.get ("/incendios/" ++ toString id)]) ∧
    updateIncendioStatus env id estado =
      (transformBackendItem env.now (env.getResp id),
        [ApiCall.patch ("/incendios/" ++ toString id ++ "/estado?nuevo_estado=" ++
           transformFrontendStatus estado),
         ApiCall.get ("/incendios/" ++ toString id)]) ∧
    updateIncendioPriority env id prioridad =
      (transformBackendItem env.now (env.getResp id),
        [ApiCall.patch ("/incendios/" ++ toString id ++ "/prioridad?nueva_prioridad=" ++
           transformFrontendPriority prioridad),
         ApiCall.get ("/incendios/" ++ toString id)]) :=
  ⟨rfl, rfl, rfl, rfl⟩

/-! ## Claim C6 -/

/-- Claim C6, counterexample: the early-return guard tests JavaScript
truthiness of the cached value, so after a first load stores the falsy
JSON value `null` for `red-vial`, a further `loadLayerData` call fetches
again (count 1, not 0) and replaces the stored data — "loaded at most
once" and "never replaced" fail. -/
theorem loadLayerData_refetches_falsy :
    cacheAfterNull.layerData "red-vial" = some Json.null ∧
    (loadLayerData envObjFetch "red-vial" cacheAfterNull).2 = 1 ∧
    (loadLayerData envObjFetch "red-vial" cacheAfterNull).1.layerData "red-vial" =
      some (Json.obj [("type", Json.str "FeatureCollection")]) ∧
    (loadLayerData envObjFetch "red-vial" cacheAfterNull).1.layerData "red-vial" ≠
      cacheAfterNull.layerData "red-vial" := by
  refine ⟨rfl, rfl, rfl, ?_⟩
  intro h
  have h1 : (loadLayerData envObjFetch "red-vial" cacheAfterNull).1.layerData "red-vial" =
      some (Json.obj [("type", Json.str "FeatureCollection")]) := rfl
  have h2 : cacheAfterNull.layerData "red-vial" = some Json.null := rfl
  rw [h1, h2] at h
  exact Json.noConfusion (Option.some.inj h)

/-- Claim C6 as amended: a `loadLayerData` call is a no-op — no fetch, and
`layerData`, `enhancedLayers`, `loadedLayers` unchanged — whenever the
cached value for the layer is a truthy JSON value (in particular any
GeoJSON object), or the id is absent from `LAYER_CONFIGS`; a falsy cached
JSON value (such as `null`) is fetched again and may be replaced. -/
theorem loadLayerData_cached_noop {α : Type} (env : LayerEnv α) (layerId : String)
    (s : MapLayersState α) :
    (∀ v, s.layerData layerId = some v → jsTruthy v = true →
      loadLayerData env layerId s = (s, 0)) ∧
    (LAYER_CONFIGS.find? (fun c => c.id == layerId) = none →
      loadLayerData env layerId s = (s, 0)) := by
  constructor
  · intro v hv ht
    unfold loadLayerData
    cases hfind : LAYER_CONFIGS.find? (fun c => c.id == layerId) with
    | none => rfl
    | some config => simp [hv, ht]
  · intro hfind
    unfold loadLayerData
    rw [hfind]

/-- Witness for the amended claim C6: a cache already holding a truthy
GeoJSON object for `red-vial` is left untouched and no fetch happens. -/
theorem loadLayerData_cached_noop_witness :
    cacheWithObj.layerData "red-vial" = some (Json.obj [("type", Json.str "FeatureCollection")]) ∧
    loadLayerData envObjFetch "red-vial" cacheWithObj = (cacheWithObj, 0) :=
  ⟨rfl, (loadLayerData_cached_noop envObjFetch "red-vial" cacheWithObj).1
    (Json.obj [("type", Json.str "FeatureCollection")]) rfl rfl⟩

/-! ## Claim C7 -/

/-- Claim C7: `handleDeclareIncident` issues exactly one fetch (no retry)
and ends with `isSubmitting = false` on every path, and when the POST
fails — the fetch rejects or the response is not ok — it only appends the
alert message, leaving `incendioData`, `incidentDeclared`,
`propagationCone` and `showDrawer` unchanged. -/
theorem handleDeclareIncident_error_state (env : DeclareEnv) (s : DeclareUIState) :
    (handleDeclareIncident env s).2 = 1 ∧
    (handleDeclareIncident env s).1.isSubmitting = false ∧
    ((env.declareResp = none ∨ ∃ d, env.declareResp = some (false, d)) →
      (handleDeclareIncident env s).1.incendioData = s.incendioData ∧
      (handleDeclareIncident env s).1.incidentDeclared = s.incidentDeclared ∧
      (handleDeclareIncident env s).1.propagationCone = s.propagationCone ∧
      (handleDeclareIncident env s).1.showDrawer = s.showDrawer ∧
      (handleDeclareIncident env s).1.alerts = s.alerts ++ [declareErrorMsg]) := by
  obtain ⟨resp⟩ := env
  cases resp with
  | none => simp [handleDeclareIncident]
  | some p =>
    obtain ⟨ok, data⟩ := p
    cases ok with
    | false => simp [handleDeclareIncident]
    | true =>
      cases hcone : createPropagationCone data with
      | error e => simp [handleDeclareIncident, hcone]
      | ok cone =>
        cases cone with
        | none => simp [handleDeclareIncident, hcone]
        | some c => simp [handleDeclareIncident, hcone]

/-- Witness for claim C7: a rejected fetch at a blank UI state. -/
theorem handleDeclareIncident_error_state_witness :
    (handleDeclareIncident { declareResp := none } declareState0).2 = 1 ∧
    (handleDeclareIncident { declareResp := none } declareState0).1.isSubmitting = false ∧
    (handleDeclareIncident { declareResp := none } declareState0).1.incendioData =
      declareState0.incendioData ∧
    (handleDeclareIncident { declareResp := none } declareState0).1.propagationCone =
      declareState0.propagationCone ∧
    (handleDeclareIncident { declareResp := none } declareState0).1.alerts =
      declareState0.alerts ++ [declareErrorMsg] := by
  obtain ⟨h1, h2, h3⟩ :=
    handleDeclareIncident_error_state { declareResp := none } declareState0
  obtain ⟨ha, hb, hc, hd, he⟩ := h3 (Or.inl rfl)
  exact ⟨h1, h2, ha, hc, he⟩

/-! ## Claim C10 -/

/-- Claim C10: `handleCoordinateSubmit` moves the placemark (and clears
the inputs, closes the enhanced search and hides the tooltip) exactly
when both inputs parse and the latitude is within [-90, 90] and the
longitude within [-180, 180]; otherwise the state is unchanged except for
an appended alert. -/
theorem handleCoordinateSubmit_validation (parseFloat : String → Option ℚ)
    (s : CoordSubmitState) :
    (∀ lat lng, parseFloat s.coordinateInput.1 = some lat →
      parseFloat s.coordinateInput.2 = some lng →
      ((-90 ≤ lat ∧ lat ≤ 90 ∧ -180 ≤ lng ∧ lng ≤ 180) →
        handleCoordinateSubmit parseFloat s =
          { s with placemark := (lat, lng)
                   coordinateInput := ("", "")
                   showEnhancedSearch := false
                   showTooltip := false }) ∧
      (¬(-90 ≤ lat ∧ lat ≤ 90 ∧ -180 ≤ lng ∧ lng ≤ 180) →
        handleCoordinateSubmit parseFloat s =
          { s with alerts := s.alerts ++ [invalidCoordsMsg] })) ∧
    ((parseFloat s.coordinateInput.1 = none ∨ parseFloat s.coordinateInput.2 = none) →
      handleCoordinateSubmit parseFloat s =
        { s with alerts := s.alerts ++ [invalidCoordsMsg] }) := by
  constructor
  · intro lat lng hlat hlng
    constructor
    · intro hin
      unfold handleCoordinateSubmit
      simp only [hlat, hlng]
      rw [if_pos hin]
    · intro hout
      unfold handleCoordinateSubmit
      simp only [hlat, hlng]
      rw [if_neg hout]
  · intro h
    unfold handleCoordinateSubmit
    rcases h with h | h
    · rw [h]
    · cases hfst : parseFloat s.coordinateInput.1 with
      | none => rfl
      | some lat => rw [h]

/-- Witness for claim C10: both inputs read `10`, which parses and is in
range, so the placemark moves to `(10, 10)`. -/
theorem handleCoordinateSubmit_validation_witness :
    handleCoordinateSubmit parseTen coordState0 =
      { coordState0 with placemark := (10, 10)
                         coordinateInput := ("", "")
                         showEnhancedSearch := false
                         showTooltip := false } :=
  ((handleCoordinateSubmit_validation parseTen coordState0).1 10 10 rfl rfl).1
    (by norm_num)

end SDEF
